import Mathlib

/-!
Verification development for the converse-craft chat relay (src/main.py).

The program is a single FastAPI handler `chat_endpoint` over an in-memory
dictionary `chat_sessions : Dict[str, list]`, plus a helper
`generate_llm_response` that posts the conversation to an external completion
API.  We embed the handler shallowly: JSON values are a mutual inductive
type, the session store is an association list (Python dict: first-match
lookup, in-place update of existing keys, new keys appended at the end), and
the nondeterministic outside world (the request-body parse result and the
upstream HTTP outcome) is passed in as explicit arguments.

Two points the embedding is careful about.  First, in the source,
`history = chat_sessions.get(session_id, [])` returns the stored list object
itself when the key is present, so the subsequent in-place
`history.append(...)` of the user turn mutates the store before the upstream
call is made; for an absent key the default `[]` is a fresh list not yet in
the store.  The embedding reproduces this aliasing explicitly.  Second, a
`session_id` that decodes to a Python list or dict is unhashable, so the
same `chat_sessions.get(...)` call raises an uncaught TypeError: it escapes
the handler (the validation `try` block has already ended) and the framework
surfaces the generic 500 Internal Server Error, with nothing stored and no
upstream call made.  The embedding models this path explicitly too.
-/

namespace ConverseCraft

mutual
/-- JSON values as decoded by `await request.json()` / `response.json()`.
Numbers are modelled as integers (the claims only involve integral values). -/
inductive Json where
  | null : Json
  | bool : Bool → Json
  | num : Int → Json
  | str : String → Json
  | arr : JsonList → Json
  | obj : JsonFields → Json
  deriving Repr

/-- The element list of a JSON array. -/
inductive JsonList where
  | nil : JsonList
  | cons : Json → JsonList → JsonList
  deriving Repr

/-- The field list of a JSON object (a decoded Python dict). -/
inductive JsonFields where
  | nil : JsonFields
  | cons : String → Json → JsonFields → JsonFields
  deriving Repr
end

deriving instance DecidableEq for Json
deriving instance DecidableEq for JsonList
deriving instance DecidableEq for JsonFields

/-- Python truthiness (`if not x`) of a decoded JSON value: `None`, `False`,
`0`, `""`, `[]` and an empty dict are falsy, everything else truthy. -/
def Json.truthy : Json → Bool
  | .null => false
  | .bool b => b
  | .num n => n != 0
  | .str s => !(s == "")
  | .arr .nil => false
  | .arr (.cons _ _) => true
  | .obj .nil => false
  | .obj (.cons _ _ _) => true

/-- Whether the decoded Python value is hashable, i.e. usable as a dict key:
`None`, booleans, numbers and strings are; lists and dicts are not. -/
def Json.hashable : Json → Bool
  | .arr _ => false
  | .obj _ => false
  | _ => true

/-- `dict.get(k)` on the field list of a decoded JSON object: the binding for
the key, if any (first match). -/
def lookupField : JsonFields → String → Option Json
  | .nil, _ => none
  | .cons k' v rest, k => if k' = k then some v else lookupField rest k

/-- A chat turn as built by the handler: the Python dict
`\x7b"role": ..., "content": ...\x7d`.  The role is always the literal string
"user" or "assistant"; the content is whatever JSON value the request
carried (the handler does not validate its type). -/
structure Turn where
  role : String
  content : Json
  deriving DecidableEq, Repr

/-- The in-memory session store `chat_sessions`, a Python dict keyed by the
request's `session_id` value: an association list, first-match lookup. -/
def Store := List (Json × List Turn)

instance : DecidableEq Store := by unfold Store; infer_instance

/-- `chat_sessions.get(session_id, ...)` key lookup. -/
def Store.find : Store → Json → Option (List Turn)
  | [], _ => none
  | (k', v) :: rest, k => if k' = k then some v else Store.find rest k

/-- `chat_sessions[session_id] = history`: replace the value of an existing
key in place, or append a new binding at the end (Python dict semantics). -/
def Store.set : Store → Json → List Turn → Store
  | [], k, v => [(k, v)]
  | (k', v') :: rest, k, v =>
    if k' = k then (k', v) :: rest else (k', v') :: Store.set rest k v

/-- An HTTP error response, as raised via `HTTPException(status_code, detail)`. -/
structure HTTPError where
  status : Nat
  detail : String
  deriving DecidableEq, Repr

/-- The exceptions that can escape the body of the validation `try` block
(source lines 107-112): a parse failure of `await request.json()`, an
`AttributeError` from calling `.get` on a non-dict body, or the
`HTTPException(400, "Missing session_id or message")` raised for
falsy fields.  All of them are caught by the enclosing `except Exception`. -/
inductive TryExc where
  | jsonParseError : TryExc
  | attrError : TryExc
  | httpExc : Nat → String → TryExc
  deriving DecidableEq, Repr

/-- The body of the validation `try` block: decode the request body, read
`data.get("session_id")` and `data.get("message")` (each `None` when the key
is missing), and raise when either is falsy.  The request body argument is
`none` when `await request.json()` raises (malformed JSON). -/
def validateBody : Option Json → Except TryExc (Json × Json)
  | none => .error .jsonParseError
  | some (.obj fields) =>
    let session_id := (lookupField fields "session_id").getD .null
    let message := (lookupField fields "message").getD .null
    if session_id.truthy && message.truthy then
      .ok (session_id, message)
    else
      .error (.httpExc 400 "Missing session_id or message")
  | some _ => .error .attrError

/-- The whole `try`/`except` of source lines 107-114: any exception from the
block, including the inner `HTTPException`, is replaced by
`HTTPException(400, "Invalid request payload")`. -/
def parseRequest (body : Option Json) : Except HTTPError (Json × Json) :=
  match validateBody body with
  | .ok v => .ok v
  | .error _ => .error { status := 400, detail := "Invalid request payload" }

/-- Statically configured completion endpoint (source line 28). -/
def LLM_API_URL : String := "https://api.litellm.com/v1/generate"

/-- Statically configured credential (source line 29). -/
def API_KEY : String := "your_api_key_here"

/-- The outgoing request of `generate_llm_response`: URL, headers, and the
JSON payload, whose `messages` field is the conversation history. -/
structure LLMRequest where
  url : String
  authorization : String
  contentType : String
  messages : List Turn
  deriving DecidableEq, Repr

/-- Request construction of source lines 137-144. -/
def buildRequest (history : List Turn) : LLMRequest :=
  { url := LLM_API_URL
    authorization := "Bearer " ++ API_KEY
    contentType := "application/json"
    messages := history }

/-- The outcome of `client.post(...)`: either the call itself raised (network
error, carrying the exception message), or a response arrived with a status
code and a decoded JSON body (`none` when `response.json()` raises). -/
inductive UpstreamResponse where
  | netError : String → UpstreamResponse
  | response : Nat → Option Json → UpstreamResponse
  deriving Repr

/-- The exceptions that can escape `generate_llm_response`; each carries or
denotes the `str(e)` text embedded into the 500 detail. -/
inductive LLMError where
  | network : String → LLMError
  | httpStatus : Nat → LLMError
  | jsonDecode : LLMError
  | typeError : LLMError
  | indexError : LLMError
  | emptyReply : LLMError
  deriving DecidableEq, Repr

/-- The `str(e)` of each exception.  `emptyReply` is the literal message of
the `ValueError` raised at source line 152; `indexError` is CPython's
IndexError text; the library exceptions (httpx request/status errors, JSON
decode errors, TypeError/AttributeError) have runtime-dependent texts and are
modelled by representative strings. -/
def LLMError.message : LLMError → String
  | .network msg => msg
  | .httpStatus code => "HTTP status error " ++ toString code
  | .jsonDecode => "JSON decode error"
  | .typeError => "type error"
  | .indexError => "list index out of range"
  | .emptyReply => "Empty response from LLM API"

/-- The whitespace characters stripped by Python's `str.strip()`: space, tab,
newline, carriage return, vertical tab, form feed.  (Python also strips some
non-ASCII Unicode spaces; those do not occur in the claims.) -/
def isPySpace (c : Char) : Bool :=
  c = ' ' || c = '\t' || c = '\n' || c = '\r' || c = '\x0b' || c = '\x0c'

/-- Python `s.strip()`: drop leading and trailing whitespace. -/
def pyStrip (s : String) : String :=
  String.mk (((s.data.dropWhile isPySpace).reverse.dropWhile isPySpace).reverse)

/-- Source line 150: `data.get("choices", [\x7b\x7d])[0].get("text", "").strip()`,
followed by the empty-reply check of lines 151-152.  The default for a
missing `choices` key is the one-element list holding an empty dict, whose
extracted text is `""`; an empty `choices` array makes the `[0]` indexing
raise IndexError; `.get` on a non-dict and `.strip()` on a non-string raise
(AttributeError/TypeError, both modelled as `typeError`). -/
def extractReply (data : Json) : Except LLMError String :=
  match data with
  | .obj fields =>
    match (lookupField fields "choices").getD (.arr (.cons (.obj .nil) .nil)) with
    | .arr .nil => .error .indexError
    | .arr (.cons first _) =>
      match first with
      | .obj cf =>
        match (lookupField cf "text").getD (.str "") with
        | .str s =>
          let reply := pyStrip s
          if reply = "" then .error .emptyReply else .ok reply
        | _ => .error .typeError
      | _ => .error .typeError
    | _ => .error .typeError
  | _ => .error .typeError

/-- Source lines 133-153 given the conversation history and the outcome of
the HTTP call: build the headers and payload, post them, and extract the
reply.  Returns the request that was posted together with the result;
`raise_for_status()` raises for every non-2xx status. -/
def generate_llm_response (history : List Turn) (upstream : UpstreamResponse) :
    LLMRequest × Except LLMError String :=
  (buildRequest history,
    match upstream with
    | .netError msg => .error (.network msg)
    | .response status body =>
      if 200 ≤ status && status < 300 then
        match body with
        | none => .error .jsonDecode
        | some data => extractReply data
      else .error (.httpStatus status))

instance {ε α : Type} [DecidableEq ε] [DecidableEq α] : DecidableEq (Except ε α) := fun a b =>
  match a, b with
  | .ok x, .ok y =>
    if h : x = y then .isTrue (by rw [h]) else .isFalse (fun hh => h (Except.ok.inj hh))
  | .error x, .error y =>
    if h : x = y then .isTrue (by rw [h]) else .isFalse (fun hh => h (Except.error.inj hh))
  | .ok _, .error _ => .isFalse (fun h => Except.noConfusion h)
  | .error _, .ok _ => .isFalse (fun h => Except.noConfusion h)

/-- What a call to the handler produces: the session store after the call,
the HTTP response (a JSON body on 200, an `HTTPException` otherwise), and
the upstream request that was sent, if the call got that far. -/
structure HandlerResult where
  store : Store
  response : Except HTTPError Json
  sentRequest : Option LLMRequest

/-- The dict appended at source line 119: role "user", content the
request's `message` value. -/
def userTurn (message : Json) : Turn :=
  { role := "user", content := message }

/-- The dict appended at source line 128: role "assistant", content the
reply string returned by `generate_llm_response`. -/
def assistantTurn (reply : String) : Turn :=
  { role := "assistant", content := .str reply }

/-- The `POST /api/chat` handler (source lines 102-131), given the current
store, the decoded request body (`none` for malformed JSON) and the upstream
outcome.  `history = chat_sessions.get(session_id, [])` aliases the stored
list when the key is present, so the in-place `history.append` of the user
turn is visible in the store before the upstream call; when the key is
absent the default `[]` is a fresh list and the store is untouched until the
final assignment.  When `session_id` decodes to an unhashable list or dict,
that same `chat_sessions.get` call raises TypeError outside the validation
`try` block: the exception escapes the handler and the framework answers
with the generic 500 Internal Server Error — nothing is stored and no
upstream call is made. -/
def chat_endpoint (store : Store) (body : Option Json) (upstream : UpstreamResponse) :
    HandlerResult :=
  match parseRequest body with
  | .error e => { store := store, response := .error e, sentRequest := none }
  | .ok (session_id, message) =>
    if session_id.hashable then
      let stored := Store.find store session_id
      let history1 := stored.getD [] ++ [userTurn message]
      let store1 := match stored with
        | some _ => Store.set store session_id history1
        | none => store
      let called := generate_llm_response history1 upstream
      match called.2 with
      | .error e =>
        { store := store1
          response := .error { status := 500, detail := "LLM API error: " ++ e.message }
          sentRequest := some called.1 }
      | .ok reply =>
        let history2 := history1 ++ [assistantTurn reply]
        { store := Store.set store1 session_id history2
          response := .ok (.obj (.cons "reply" (.str reply) .nil))
          sentRequest := some called.1 }
    else
      { store := store
        response := .error { status := 500, detail := "Internal Server Error" }
        sentRequest := none }

/-! ## Store lemmas -/

theorem Store.find_set_self (s : Store) (k : Json) (v : List Turn) :
    (Store.set s k v).find k = some v := by
  induction s with
  | nil => simp [Store.set, Store.find]
  | cons p rest ih =>
    obtain ⟨k', v'⟩ := p
    by_cases h : k' = k
    · simp [Store.set, Store.find, h]
    · simp [Store.set, Store.find, h, ih]

theorem Store.find_set_other (s : Store) (k q : Json) (v : List Turn) (h : q ≠ k) :
    (Store.set s k v).find q = s.find q := by
  have hk : k ≠ q := fun hh => h hh.symm
  induction s with
  | nil => simp [Store.set, Store.find, hk]
  | cons p rest ih =>
    obtain ⟨k', v'⟩ := p
    by_cases hkk : k' = k
    · subst hkk
      simp [Store.set, Store.find, hk]
    · simp [Store.set, Store.find, hkk, ih]

theorem Store.set_set (s : Store) (k : Json) (v w : List Turn) :
    Store.set (Store.set s k v) k w = Store.set s k w := by
  induction s with
  | nil => simp [Store.set]
  | cons p rest ih =>
    obtain ⟨k', v'⟩ := p
    by_cases h : k' = k
    · simp [Store.set, h]
    · simp [Store.set, h, ih]

/-! ## Handler unfolding lemmas -/

/-- When the validation block raises, the handler rethrows the 400 and
touches nothing. -/
theorem chat_endpoint_parse_error (store : Store) (body : Option Json)
    (upstream : UpstreamResponse) (e : HTTPError)
    (hp : parseRequest body = .error e) :
    chat_endpoint store body upstream =
      { store := store, response := .error e, sentRequest := none } := by
  unfold chat_endpoint
  rw [hp]

/-- When validation has succeeded but the session key is an unhashable list
or dict, the handler dies at the store lookup with the uncaught TypeError:
generic 500, nothing stored, no upstream call. -/
theorem chat_endpoint_unhashable (store : Store) (body : Option Json)
    (upstream : UpstreamResponse) (sid msg : Json)
    (hp : parseRequest body = .ok (sid, msg)) (hsh : sid.hashable = false) :
    chat_endpoint store body upstream =
      { store := store
        response := .error { status := 500, detail := "Internal Server Error" }
        sentRequest := none } := by
  unfold chat_endpoint
  rw [hp]
  simp [hsh]

/-- Unfolding of the handler once validation has succeeded on a hashable
session key: the user turn is appended (in place, when the key already
exists), the upstream call is made on the extended history, and the outcome
decides the rest. -/
theorem chat_endpoint_parse_ok (store : Store) (body : Option Json)
    (upstream : UpstreamResponse) (sid msg : Json)
    (hp : parseRequest body = .ok (sid, msg)) (hsh : sid.hashable = true) :
    chat_endpoint store body upstream =
      (let history1 := (Store.find store sid).getD [] ++ [userTurn msg]
      let store1 := match Store.find store sid with
        | some _ => Store.set store sid history1
        | none => store
      match (generate_llm_response history1 upstream).2 with
      | .error e =>
        { store := store1
          response := .error { status := 500, detail := "LLM API error: " ++ e.message }
          sentRequest := some (generate_llm_response history1 upstream).1 }
      | .ok reply =>
        { store := Store.set store1 sid (history1 ++ [assistantTurn reply])
          response := .ok (.obj (.cons "reply" (.str reply) .nil))
          sentRequest := some (generate_llm_response history1 upstream).1 }) := by
  unfold chat_endpoint
  rw [hp]
  simp [hsh]

/-! ## Validation lemmas -/

/-- The only error the validation `try`/`except` can surface. -/
theorem parseRequest_error_detail (body : Option Json) (e : HTTPError)
    (hp : parseRequest body = .error e) :
    e = { status := 400, detail := "Invalid request payload" } := by
  unfold parseRequest at hp
  cases hv : validateBody body <;> rw [hv] at hp <;> simp_all

/-- A body carrying non-empty `session_id` and `message` strings passes
validation and yields exactly those two values. -/
theorem parseRequest_strings (sid msg : String) (hs : sid ≠ "") (hm : msg ≠ "") :
    parseRequest (some (.obj (.cons "session_id" (.str sid)
      (.cons "message" (.str msg) .nil)))) = .ok (.str sid, .str msg) := by
  simp [parseRequest, validateBody, lookupField, Json.truthy, hs, hm]

/-! ## Claims -/

/-- C8: the Session Store lookup returns the empty sequence for a session_id
that has never been saved (lookups on the initial empty store default to
`[]`, and saves under other keys keep an unseen key unseen), and saving
under a session_id replaces the stored sequence for that key, visible to the
next lookup (while leaving every other key's sequence unchanged). -/
theorem store_contract :
    (∀ k : Json, (Store.find ([] : Store) k).getD [] = ([] : List Turn)) ∧
    (∀ (s : Store) (k q : Json) (v : List Turn),
       q ≠ k → Store.find s q = none → (Store.set s k v).find q = none) ∧
    (∀ (s : Store) (k : Json) (v : List Turn), (Store.set s k v).find k = some v) ∧
    (∀ (s : Store) (k q : Json) (v : List Turn),
       q ≠ k → (Store.set s k v).find q = Store.find s q) := by
  refine ⟨fun k => rfl, fun s k q v hne hnone => ?_, Store.find_set_self,
    Store.find_set_other⟩
  rw [Store.find_set_other s k q v hne, hnone]

/-- Witness for C8 at concrete inputs. -/
theorem store_contract_witness :
    (Store.find ([] : Store) (.str "abc")).getD [] = ([] : List Turn) ∧
    (Store.set [] (.str "abc") [userTurn (.str "hi")]).find (.str "x") = none ∧
    (Store.set [] (.str "abc") [userTurn (.str "hi")]).find (.str "abc")
      = some [userTurn (.str "hi")] ∧
    (Store.set [(Json.str "x", [])] (.str "abc") [userTurn (.str "hi")]).find (.str "x")
      = Store.find [(Json.str "x", [])] (.str "x") :=
  ⟨store_contract.1 (.str "abc"),
   store_contract.2.1 [] (.str "abc") (.str "x") [userTurn (.str "hi")]
     (by decide) rfl,
   store_contract.2.2.1 [] (.str "abc") [userTurn (.str "hi")],
   store_contract.2.2.2 [(Json.str "x", [])] (.str "abc") (.str "x")
     [userTurn (.str "hi")] (by decide)⟩

/-- C2: for non-empty string `session_id` and `message`, when the completion
call succeeds with reply text `reply`, the handler responds with the JSON
body carrying exactly `reply`, and the stored history for that session grows
by exactly the user turn followed by the assistant turn. -/
theorem chat_success_reply_and_two_turns (store : Store) (sid msg : String)
    (upstream : UpstreamResponse) (reply : String)
    (hs : sid ≠ "") (hm : msg ≠ "")
    (hup : (generate_llm_response
        ((Store.find store (.str sid)).getD [] ++ [userTurn (.str msg)]) upstream).2
      = .ok reply) :
    (chat_endpoint store
        (some (.obj (.cons "session_id" (.str sid) (.cons "message" (.str msg) .nil))))
        upstream).response
      = .ok (.obj (.cons "reply" (.str reply) .nil)) ∧
    (chat_endpoint store
        (some (.obj (.cons "session_id" (.str sid) (.cons "message" (.str msg) .nil))))
        upstream).store.find (.str sid)
      = some ((Store.find store (.str sid)).getD []
          ++ [userTurn (.str msg), assistantTurn reply]) := by
  rw [chat_endpoint_parse_ok store _ upstream (.str sid) (.str msg)
    (parseRequest_strings sid msg hs hm) rfl]
  cases hf : Store.find store (.str sid) with
  | none =>
    rw [hf] at hup
    simp only [Option.getD_none, List.nil_append] at hup
    simp [hf, hup, Store.find_set_self]
  | some h =>
    rw [hf] at hup
    simp only [Option.getD_some] at hup
    simp [hf, hup, Store.set_set, Store.find_set_self]

/-- Witness for C2: the spec's concrete example.  Posting session "abc",
message "hello" against the empty store with the upstream body
`choices = [ text = " hi there " ]` yields the reply "hi there" and the
two-turn history. -/
theorem chat_success_reply_and_two_turns_witness :
    (chat_endpoint []
        (some (.obj (.cons "session_id" (.str "abc") (.cons "message" (.str "hello") .nil))))
        (.response 200 (some (.obj (.cons "choices"
          (.arr (.cons (.obj (.cons "text" (.str " hi there ") .nil)) .nil)) .nil))))).response
      = .ok (.obj (.cons "reply" (.str "hi there") .nil)) ∧
    (chat_endpoint []
        (some (.obj (.cons "session_id" (.str "abc") (.cons "message" (.str "hello") .nil))))
        (.response 200 (some (.obj (.cons "choices"
          (.arr (.cons (.obj (.cons "text" (.str " hi there ") .nil)) .nil)) .nil))))).store.find
        (.str "abc")
      = some ((Store.find ([] : Store) (.str "abc")).getD []
          ++ [userTurn (.str "hello"), assistantTurn "hi there"]) :=
  chat_success_reply_and_two_turns [] "abc" "hello"
    (.response 200 (some (.obj (.cons "choices"
      (.arr (.cons (.obj (.cons "text" (.str " hi there ") .nil)) .nil)) .nil))))
    "hi there" (by decide) (by decide) (by decide)

/-- C4: a request whose body is malformed JSON, or whose `session_id` or
`message` field is missing or the empty string, fails with a 400 error and
leaves the Session Store untouched (and no upstream call is made). -/
theorem invalid_request_400_no_mutation (store : Store) (body : Option Json)
    (upstream : UpstreamResponse)
    (hbad : body = none ∨ ∃ fields, body = some (.obj fields) ∧
      (lookupField fields "session_id" = none ∨
       lookupField fields "session_id" = some (.str "") ∨
       lookupField fields "message" = none ∨
       lookupField fields "message" = some (.str ""))) :
    (chat_endpoint store body upstream).response
      = .error { status := 400, detail := "Invalid request payload" } ∧
    (chat_endpoint store body upstream).store = store ∧
    (chat_endpoint store body upstream).sentRequest = none := by
  have hp : parseRequest body = .error { status := 400, detail := "Invalid request payload" } := by
    rcases hbad with rfl | ⟨fields, rfl, hf⟩
    · rfl
    · rcases hf with h | h | h | h <;>
        simp [parseRequest, validateBody, h, Json.truthy]
  rw [chat_endpoint_parse_error store body upstream _ hp]
  exact ⟨rfl, rfl, rfl⟩

/-- Witness for C4: the spec's own example, a body with only a message. -/
theorem invalid_request_400_no_mutation_witness :
    (chat_endpoint [] (some (.obj (.cons "message" (.str "hi") .nil)))
        (.netError "unused")).response
      = .error { status := 400, detail := "Invalid request payload" } ∧
    (chat_endpoint [] (some (.obj (.cons "message" (.str "hi") .nil)))
        (.netError "unused")).store = [] ∧
    (chat_endpoint [] (some (.obj (.cons "message" (.str "hi") .nil)))
        (.netError "unused")).sentRequest = none :=
  invalid_request_400_no_mutation [] _ (.netError "unused")
    (Or.inr ⟨_, rfl, Or.inl (by decide)⟩)

/-- C5: the completion call extracts the reply from the `text` of the first
element of the `choices` array, strips surrounding whitespace, and fails
with the `ValueError` when the stripped text is empty; and every failure of
the completion call makes the handler fail with a 500 whose detail embeds
the cause message after the prefix "LLM API error: " (stated for hashable
session keys, the only ones on which the completion call is reached). -/
theorem extraction_and_upstream_500 :
    (∀ (fields cf : JsonFields) (rest : JsonList) (s : String),
       lookupField fields "choices" = some (.arr (.cons (.obj cf) rest)) →
       lookupField cf "text" = some (.str s) →
       extractReply (.obj fields) =
         (if pyStrip s = "" then .error .emptyReply else .ok (pyStrip s))) ∧
    (∀ (store : Store) (body : Option Json) (upstream : UpstreamResponse)
       (sid msg : Json) (e : LLMError),
       parseRequest body = .ok (sid, msg) → sid.hashable = true →
       (generate_llm_response ((Store.find store sid).getD [] ++ [userTurn msg]) upstream).2
         = .error e →
       (chat_endpoint store body upstream).response =
         .error { status := 500, detail := "LLM API error: " ++ LLMError.message e }) := by
  constructor
  · intro fields cf rest s h1 h2
    simp [extractReply, h1, h2]
  · intro store body upstream sid msg e hp hsh he
    rw [chat_endpoint_parse_ok store body upstream sid msg hp hsh]
    cases hf : Store.find store sid with
    | none =>
      rw [hf] at he
      simp only [Option.getD_none, List.nil_append] at he
      simp [hf, he]
    | some h =>
      rw [hf] at he
      simp only [Option.getD_some] at he
      simp [hf, he]

/-- Witness for C5: extraction of " hi there " (stripped, non-empty) and of
"  " (stripped to empty, the ValueError case), and a network failure "boom"
surfacing as detail "LLM API error: boom". -/
theorem extraction_and_upstream_500_witness :
    extractReply (.obj (.cons "choices"
        (.arr (.cons (.obj (.cons "text" (.str " hi there ") .nil)) .nil)) .nil))
      = (if pyStrip " hi there " = "" then .error .emptyReply
         else .ok (pyStrip " hi there ")) ∧
    extractReply (.obj (.cons "choices"
        (.arr (.cons (.obj (.cons "text" (.str "  ") .nil)) .nil)) .nil))
      = (if pyStrip "  " = "" then .error .emptyReply else .ok (pyStrip "  ")) ∧
    (chat_endpoint []
        (some (.obj (.cons "session_id" (.str "abc") (.cons "message" (.str "hello") .nil))))
        (.netError "boom")).response
      = .error { status := 500, detail := "LLM API error: " ++ LLMError.message (.network "boom") } :=
  ⟨extraction_and_upstream_500.1
     (.cons "choices" (.arr (.cons (.obj (.cons "text" (.str " hi there ") .nil)) .nil)) .nil)
     (.cons "text" (.str " hi there ") .nil) .nil " hi there " (by decide) (by decide),
   extraction_and_upstream_500.1
     (.cons "choices" (.arr (.cons (.obj (.cons "text" (.str "  ") .nil)) .nil)) .nil)
     (.cons "text" (.str "  ") .nil) .nil "  " (by decide) (by decide),
   extraction_and_upstream_500.2 [] _ (.netError "boom") (.str "abc") (.str "hello")
     (.network "boom") (by decide) rfl (by decide)⟩

/-- The request component of `generate_llm_response` is the constructed
headers-and-payload record. -/
theorem generate_llm_response_fst (history : List Turn) (up : UpstreamResponse) :
    (generate_llm_response history up).1 = buildRequest history := rfl

/-- C7: whenever the handler makes the external completion call, the posted
request carries the full current turn sequence (the stored history with the
just-appended user turn) under its `messages` field, in stored order, and a
bearer-token Authorization header with the statically configured
credential. -/
theorem upstream_request_contents (store : Store) (body : Option Json)
    (upstream : UpstreamResponse) (req : LLMRequest)
    (h : (chat_endpoint store body upstream).sentRequest = some req) :
    ∃ sid msg, parseRequest body = .ok (sid, msg) ∧
      req.messages = (Store.find store sid).getD [] ++ [userTurn msg] ∧
      req.authorization = "Bearer " ++ API_KEY ∧
      req.url = LLM_API_URL := by
  cases hp : parseRequest body with
  | error e =>
    rw [chat_endpoint_parse_error store body upstream e hp] at h
    exact absurd h (by simp)
  | ok p =>
    obtain ⟨sid, msg⟩ := p
    cases hsh : sid.hashable with
    | false =>
      rw [chat_endpoint_unhashable store body upstream sid msg hp hsh] at h
      exact absurd h (by simp)
    | true =>
      rw [chat_endpoint_parse_ok store body upstream sid msg hp hsh] at h
      have hreq : req = buildRequest ((Store.find store sid).getD [] ++ [userTurn msg]) := by
        cases hg : (generate_llm_response
            ((Store.find store sid).getD [] ++ [userTurn msg]) upstream).2 <;>
          simp only [hg, generate_llm_response_fst, Option.some.injEq] at h <;>
          exact h.symm
      refine ⟨sid, msg, rfl, ?_⟩
      rw [hreq]
      exact ⟨rfl, rfl, rfl⟩

/-- Witness for C7 at a concrete successful call. -/
theorem upstream_request_contents_witness :
    ∃ sid msg,
      parseRequest (some (.obj (.cons "session_id" (.str "abc")
        (.cons "message" (.str "hello") .nil)))) = .ok (sid, msg) ∧
      (buildRequest [userTurn (.str "hello")]).messages
        = (Store.find ([] : Store) sid).getD [] ++ [userTurn msg] ∧
      (buildRequest [userTurn (.str "hello")]).authorization = "Bearer " ++ API_KEY ∧
      (buildRequest [userTurn (.str "hello")]).url = LLM_API_URL :=
  upstream_request_contents []
    (some (.obj (.cons "session_id" (.str "abc") (.cons "message" (.str "hello") .nil))))
    (.netError "boom") (buildRequest [userTurn (.str "hello")]) (by decide)

/-- C10: every 400 response of the handler carries the detail
"Invalid request payload": the `HTTPException` raised inside the `try` block
with detail "Missing session_id or message" is caught by the enclosing
`except Exception` and replaced, so that detail never reaches a caller
(shown here for the empty-object body, whose inner exception carries it). -/
theorem every_400_detail_invalid_payload :
    (∀ (store : Store) (body : Option Json) (upstream : UpstreamResponse) (e : HTTPError),
       (chat_endpoint store body upstream).response = .error e → e.status = 400 →
       e.detail = "Invalid request payload") ∧
    validateBody (some (.obj .nil))
      = .error (.httpExc 400 "Missing session_id or message") ∧
    (∀ (store : Store) (upstream : UpstreamResponse),
       (chat_endpoint store (some (.obj .nil)) upstream).response
         = .error { status := 400, detail := "Invalid request payload" }) := by
  refine ⟨?_, rfl, ?_⟩
  · intro store body upstream e hresp hstatus
    cases hp : parseRequest body with
    | error e' =>
      rw [chat_endpoint_parse_error store body upstream e' hp] at hresp
      simp only [Except.error.injEq] at hresp
      rw [← hresp, parseRequest_error_detail body e' hp]
    | ok p =>
      obtain ⟨sid, msg⟩ := p
      cases hsh : sid.hashable with
      | false =>
        rw [chat_endpoint_unhashable store body upstream sid msg hp hsh] at hresp
        simp only [Except.error.injEq] at hresp
        rw [← hresp] at hstatus
        exact absurd hstatus (by simp)
      | true =>
        rw [chat_endpoint_parse_ok store body upstream sid msg hp hsh] at hresp
        cases hg : (generate_llm_response
            ((Store.find store sid).getD [] ++ [userTurn msg]) upstream).2 with
        | error eL =>
          simp only [hg, Except.error.injEq] at hresp
          rw [← hresp] at hstatus
          exact absurd hstatus (by simp)
        | ok reply =>
          simp only [hg] at hresp
          exact absurd hresp (by simp)
  · intro store upstream
    rw [chat_endpoint_parse_error store (some (.obj .nil)) upstream
      { status := 400, detail := "Invalid request payload" } rfl]

/-- Witness for C10's universally quantified part at a concrete 400. -/
theorem every_400_detail_invalid_payload_witness :
    HTTPError.detail { status := 400, detail := "Invalid request payload" }
      = "Invalid request payload" ∧
    (chat_endpoint [] (some (.obj .nil)) (.netError "x")).response
      = .error { status := 400, detail := "Invalid request payload" } :=
  ⟨every_400_detail_invalid_payload.1 [] none (.netError "x")
     { status := 400, detail := "Invalid request payload" } rfl rfl,
   every_400_detail_invalid_payload.2.2 [] (.netError "x")⟩

/-- On success, the stored sequence for the session becomes the old history
extended by the user and assistant turns. -/
theorem chat_endpoint_success_store (store : Store) (body : Option Json)
    (upstream : UpstreamResponse) (sid msg : Json) (reply : String)
    (hp : parseRequest body = .ok (sid, msg)) (hsh : sid.hashable = true)
    (hg : (generate_llm_response
        ((Store.find store sid).getD [] ++ [userTurn msg]) upstream).2 = .ok reply) :
    (chat_endpoint store body upstream).store
      = Store.set store sid
          ((Store.find store sid).getD [] ++ [userTurn msg, assistantTurn reply]) := by
  rw [chat_endpoint_parse_ok store body upstream sid msg hp hsh]
  cases hf : Store.find store sid with
  | none =>
    rw [hf] at hg
    simp only [Option.getD_none, List.nil_append] at hg
    simp [hf, hg]
  | some h =>
    rw [hf] at hg
    simp only [Option.getD_some] at hg
    simp [hf, hg, Store.set_set]

/-- On upstream failure with a fresh session key, the store is untouched:
the list holding the user turn was never assigned into the dict. -/
theorem chat_endpoint_failure_store_fresh (store : Store) (body : Option Json)
    (upstream : UpstreamResponse) (sid msg : Json) (e : LLMError)
    (hp : parseRequest body = .ok (sid, msg)) (hsh : sid.hashable = true)
    (hf : Store.find store sid = none)
    (hg : (generate_llm_response [userTurn msg] upstream).2 = .error e) :
    (chat_endpoint store body upstream).store = store := by
  rw [chat_endpoint_parse_ok store body upstream sid msg hp hsh]
  simp [hf, hg]

/-- On upstream failure with an existing session key, the in-place append
has already extended the stored list by the user turn. -/
theorem chat_endpoint_failure_store_existing (store : Store) (body : Option Json)
    (upstream : UpstreamResponse) (sid msg : Json) (e : LLMError) (h : List Turn)
    (hp : parseRequest body = .ok (sid, msg)) (hsh : sid.hashable = true)
    (hf : Store.find store sid = some h)
    (hg : (generate_llm_response (h ++ [userTurn msg]) upstream).2 = .error e) :
    (chat_endpoint store body upstream).store
      = Store.set store sid (h ++ [userTurn msg]) := by
  rw [chat_endpoint_parse_ok store body upstream sid msg hp hsh]
  simp [hf, hg]

/-- C3: all-or-nothing persistence is asymmetric between new and existing
sessions.  For a session key not in the store, a failed upstream call leaves
no entry for that key (the store is unchanged); for a key already present,
the fetched history aliases the stored list, so the failed call leaves the
stored history extended by exactly the one user turn. -/
theorem failure_persistence_asymmetry (store : Store) (body : Option Json)
    (upstream : UpstreamResponse) (sid msg : Json) (e : LLMError)
    (hp : parseRequest body = .ok (sid, msg)) (hsh : sid.hashable = true)
    (he : (generate_llm_response
        ((Store.find store sid).getD [] ++ [userTurn msg]) upstream).2 = .error e) :
    (Store.find store sid = none →
       (chat_endpoint store body upstream).store = store ∧
       (chat_endpoint store body upstream).store.find sid = none) ∧
    (∀ h, Store.find store sid = some h →
       (chat_endpoint store body upstream).store
         = Store.set store sid (h ++ [userTurn msg]) ∧
       (chat_endpoint store body upstream).store.find sid
         = some (h ++ [userTurn msg])) := by
  constructor
  · intro hf
    rw [hf] at he
    simp only [Option.getD_none, List.nil_append] at he
    have := chat_endpoint_failure_store_fresh store body upstream sid msg e hp hsh hf he
    exact ⟨this, by rw [this, hf]⟩
  · intro h hf
    rw [hf] at he
    simp only [Option.getD_some] at he
    have := chat_endpoint_failure_store_existing store body upstream sid msg e h hp hsh hf he
    exact ⟨this, by rw [this, Store.find_set_self]⟩

/-- Witness for C3: a failed call against an unseen key "abc" leaves the
empty store empty, and the same failed call against a store where "abc"
already holds one turn leaves that history extended by the user turn. -/
theorem failure_persistence_asymmetry_witness :
    ((chat_endpoint []
        (some (.obj (.cons "session_id" (.str "abc") (.cons "message" (.str "hello") .nil))))
        (.netError "boom")).store = ([] : Store) ∧
     (chat_endpoint []
        (some (.obj (.cons "session_id" (.str "abc") (.cons "message" (.str "hello") .nil))))
        (.netError "boom")).store.find (.str "abc") = none) ∧
    ((chat_endpoint [(Json.str "abc", [userTurn (.str "hi")])]
        (some (.obj (.cons "session_id" (.str "abc") (.cons "message" (.str "hello") .nil))))
        (.netError "boom")).store
       = Store.set [(Json.str "abc", [userTurn (.str "hi")])] (.str "abc")
           ([userTurn (.str "hi")] ++ [userTurn (.str "hello")]) ∧
     (chat_endpoint [(Json.str "abc", [userTurn (.str "hi")])]
        (some (.obj (.cons "session_id" (.str "abc") (.cons "message" (.str "hello") .nil))))
        (.netError "boom")).store.find (.str "abc")
       = some ([userTurn (.str "hi")] ++ [userTurn (.str "hello")])) :=
  ⟨(failure_persistence_asymmetry []
      (some (.obj (.cons "session_id" (.str "abc") (.cons "message" (.str "hello") .nil))))
      (.netError "boom") (.str "abc") (.str "hello") (.network "boom")
      (by decide) rfl (by decide)).1 rfl,
   (failure_persistence_asymmetry [(Json.str "abc", [userTurn (.str "hi")])]
      (some (.obj (.cons "session_id" (.str "abc") (.cons "message" (.str "hello") .nil))))
      (.netError "boom") (.str "abc") (.str "hello") (.network "boom")
      (by decide) rfl (by decide)).2 [userTurn (.str "hi")] rfl⟩

/-- C1 counterexample: a call that fails before the persistence step does
change the stored history.  Against a store where session "abc" already
holds two turns, a request whose upstream call raises ("boom") returns the
500 error, yet the stored history for "abc" now holds three turns — the
user turn was appended in place — so the store is not unchanged and neither
"both turns" nor "neither turn" was persisted. -/
theorem both_or_neither_counterexample :
    (chat_endpoint [(Json.str "abc", [userTurn (.str "hi"), assistantTurn "yo"])]
        (some (.obj (.cons "session_id" (.str "abc") (.cons "message" (.str "hello") .nil))))
        (.netError "boom")).response
      = .error { status := 500, detail := "LLM API error: boom" } ∧
    (chat_endpoint [(Json.str "abc", [userTurn (.str "hi"), assistantTurn "yo"])]
        (some (.obj (.cons "session_id" (.str "abc") (.cons "message" (.str "hello") .nil))))
        (.netError "boom")).store.find (.str "abc")
      = some [userTurn (.str "hi"), assistantTurn "yo", userTurn (.str "hello")] ∧
    (chat_endpoint [(Json.str "abc", [userTurn (.str "hi"), assistantTurn "yo"])]
        (some (.obj (.cons "session_id" (.str "abc") (.cons "message" (.str "hello") .nil))))
        (.netError "boom")).store
      ≠ [(Json.str "abc", [userTurn (.str "hi"), assistantTurn "yo"])] := by
  refine ⟨rfl, rfl, ?_⟩
  decide

/-- C1 amended: persistence is all-or-nothing only for session keys not yet
in the store — there a failure before persistence leaves the store
unchanged, and success persists both turns; for a key already present, a
failure leaves the stored history extended by exactly the user turn.
Stated for hashable session keys, the only values that can reach the
persistence code at all (an unhashable key raises at the store lookup). -/
theorem both_or_neither_amended (store : Store) (body : Option Json)
    (upstream : UpstreamResponse) (sid msg : Json)
    (hp : parseRequest body = .ok (sid, msg)) (hsh : sid.hashable = true) :
    (∀ e, (generate_llm_response
         ((Store.find store sid).getD [] ++ [userTurn msg]) upstream).2 = .error e →
       (Store.find store sid = none → (chat_endpoint store body upstream).store = store) ∧
       (∀ h, Store.find store sid = some h →
          (chat_endpoint store body upstream).store.find sid
            = some (h ++ [userTurn msg]))) ∧
    (∀ reply, (generate_llm_response
         ((Store.find store sid).getD [] ++ [userTurn msg]) upstream).2 = .ok reply →
       (chat_endpoint store body upstream).store.find sid
         = some ((Store.find store sid).getD [] ++ [userTurn msg, assistantTurn reply])) := by
  constructor
  · intro e he
    constructor
    · intro hf
      rw [hf] at he
      simp only [Option.getD_none, List.nil_append] at he
      exact chat_endpoint_failure_store_fresh store body upstream sid msg e hp hsh hf he
    · intro h hf
      rw [hf] at he
      simp only [Option.getD_some] at he
      rw [chat_endpoint_failure_store_existing store body upstream sid msg e h hp hsh hf he,
        Store.find_set_self]
  · intro reply hg
    rw [chat_endpoint_success_store store body upstream sid msg reply hp hsh hg,
      Store.find_set_self]

/-- Witness for C1's amended statement: the fresh-key failure case and the
fresh-key success case at concrete inputs. -/
theorem both_or_neither_amended_witness :
    ((chat_endpoint []
        (some (.obj (.cons "session_id" (.str "abc") (.cons "message" (.str "hello") .nil))))
        (.netError "boom")).store = ([] : Store)) ∧
    ((chat_endpoint []
        (some (.obj (.cons "session_id" (.str "abc") (.cons "message" (.str "hello") .nil))))
        (.response 200 (some (.obj (.cons "choices"
          (.arr (.cons (.obj (.cons "text" (.str " hi there ") .nil)) .nil)) .nil))))).store.find
        (.str "abc")
      = some ((Store.find ([] : Store) (.str "abc")).getD []
          ++ [userTurn (.str "hello"), assistantTurn "hi there"])) :=
  ⟨((both_or_neither_amended []
      (some (.obj (.cons "session_id" (.str "abc") (.cons "message" (.str "hello") .nil))))
      (.netError "boom") (.str "abc") (.str "hello") (by decide) rfl).1
      (.network "boom") (by decide)).1 rfl,
   (both_or_neither_amended []
      (some (.obj (.cons "session_id" (.str "abc") (.cons "message" (.str "hello") .nil))))
      (.response 200 (some (.obj (.cons "choices"
        (.arr (.cons (.obj (.cons "text" (.str " hi there ") .nil)) .nil)) .nil))))
      (.str "abc") (.str "hello") (by decide) rfl).2 "hi there" (by decide)⟩

/-- C6: the store is append-only per session — every handler call preserves
the existing turns of every stored session as a prefix, in order, and no
entry is deleted; hence two sequential successful calls with the same
session key leave its history as the first call's two turns followed by the
second call's two turns. -/
theorem store_append_only :
    (∀ (store : Store) (body : Option Json) (upstream : UpstreamResponse)
       (k : Json) (h : List Turn),
       Store.find store k = some h →
       ∃ t, (chat_endpoint store body upstream).store.find k = some (h ++ t)) ∧
    (∀ (store : Store) (body1 body2 : Option Json) (up1 up2 : UpstreamResponse)
       (sid msg1 msg2 : Json) (r1 r2 : String),
       parseRequest body1 = .ok (sid, msg1) →
       parseRequest body2 = .ok (sid, msg2) →
       Json.hashable sid = true →
       Store.find store sid = none →
       (generate_llm_response [userTurn msg1] up1).2 = .ok r1 →
       (generate_llm_response [userTurn msg1, assistantTurn r1, userTurn msg2] up2).2
         = .ok r2 →
       ((chat_endpoint (chat_endpoint store body1 up1).store body2 up2).store).find sid
         = some [userTurn msg1, assistantTurn r1, userTurn msg2, assistantTurn r2]) := by
  constructor
  · intro store body upstream k h hf
    cases hp : parseRequest body with
    | error e =>
      rw [chat_endpoint_parse_error store body upstream e hp]
      exact ⟨[], by simpa using hf⟩
    | ok p =>
      obtain ⟨sid, msg⟩ := p
      cases hsh : sid.hashable with
      | false =>
        rw [chat_endpoint_unhashable store body upstream sid msg hp hsh]
        exact ⟨[], by simpa using hf⟩
      | true =>
        by_cases hk : k = sid
        · subst hk
          cases hg : (generate_llm_response
              ((Store.find store k).getD [] ++ [userTurn msg]) upstream).2 with
          | error e =>
            rw [hf] at hg
            simp only [Option.getD_some] at hg
            refine ⟨[userTurn msg], ?_⟩
            rw [chat_endpoint_failure_store_existing store body upstream k msg e h hp hsh hf hg,
              Store.find_set_self]
          | ok reply =>
            refine ⟨[userTurn msg, assistantTurn reply], ?_⟩
            rw [chat_endpoint_success_store store body upstream k msg reply hp hsh hg,
              Store.find_set_self, hf]
            simp
        · refine ⟨[], ?_⟩
          rw [List.append_nil]
          rw [chat_endpoint_parse_ok store body upstream sid msg hp hsh]
          cases hfs : Store.find store sid with
          | none =>
            cases hg : (generate_llm_response [userTurn msg] upstream).2 <;>
              simp [hfs, hg, hf, Store.find_set_other _ _ _ _ hk]
          | some hv =>
            cases hg : (generate_llm_response (hv ++ [userTurn msg]) upstream).2 <;>
              simp [hfs, hg, hf, Store.find_set_other _ _ _ _ hk]
  · intro store body1 body2 up1 up2 sid msg1 msg2 r1 r2 hp1 hp2 hsh hf0 hg1 hg2
    have e1 : (chat_endpoint store body1 up1).store
        = Store.set store sid [userTurn msg1, assistantTurn r1] := by
      have := chat_endpoint_success_store store body1 up1 sid msg1 r1 hp1 hsh
        (by rw [hf0]; simpa using hg1)
      rw [this, hf0]
      simp
    have f1 : Store.find (chat_endpoint store body1 up1).store sid
        = some [userTurn msg1, assistantTurn r1] := by
      rw [e1, Store.find_set_self]
    have e2 := chat_endpoint_success_store (chat_endpoint store body1 up1).store
      body2 up2 sid msg2 r2 hp2 hsh (by rw [f1]; simpa using hg2)
    rw [e2, Store.find_set_self, f1]
    simp

/-- Witness for C6 at concrete inputs: prefix preservation on a failing
call against an existing session, and the four-turn history after two
successful calls from the empty store. -/
theorem store_append_only_witness :
    (∃ t, (chat_endpoint [(Json.str "abc", [userTurn (.str "hi")])]
        (some (.obj (.cons "session_id" (.str "abc") (.cons "message" (.str "hello") .nil))))
        (.netError "boom")).store.find (.str "abc")
      = some ([userTurn (.str "hi")] ++ t)) ∧
    Store.find (chat_endpoint (chat_endpoint []
        (some (.obj (.cons "session_id" (.str "abc") (.cons "message" (.str "one") .nil))))
        (.response 200 (some (.obj (.cons "choices"
          (.arr (.cons (.obj (.cons "text" (.str "r1") .nil)) .nil)) .nil))))).store
        (some (.obj (.cons "session_id" (.str "abc") (.cons "message" (.str "two") .nil))))
        (.response 200 (some (.obj (.cons "choices"
          (.arr (.cons (.obj (.cons "text" (.str "r2") .nil)) .nil)) .nil))))).store
        (.str "abc")
      = some [userTurn (.str "one"), assistantTurn "r1",
          userTurn (.str "two"), assistantTurn "r2"] :=
  ⟨store_append_only.1 [(Json.str "abc", [userTurn (.str "hi")])]
     (some (.obj (.cons "session_id" (.str "abc") (.cons "message" (.str "hello") .nil))))
     (.netError "boom") (.str "abc") [userTurn (.str "hi")] rfl,
   store_append_only.2 []
     (some (.obj (.cons "session_id" (.str "abc") (.cons "message" (.str "one") .nil))))
     (some (.obj (.cons "session_id" (.str "abc") (.cons "message" (.str "two") .nil))))
     (.response 200 (some (.obj (.cons "choices"
       (.arr (.cons (.obj (.cons "text" (.str "r1") .nil)) .nil)) .nil))))
     (.response 200 (some (.obj (.cons "choices"
       (.arr (.cons (.obj (.cons "text" (.str "r2") .nil)) .nil)) .nil))))
     (.str "abc") (.str "one") (.str "two") "r1" "r2"
     (by decide) (by decide) rfl rfl (by decide) (by decide)⟩

/-- C9: validation rejects exactly the Python-falsy field values, not
exactly the missing-or-empty-string ones.  A `session_id` or `message`
equal to JSON 0, false, null, or an empty array is rejected with a 400 and
no store mutation, while any truthy value passes validation unchanged.  A
truthy non-string message (e.g. the number 5 or a non-empty object) is then
stored and forwarded upstream as the turn content without further
validation, under any truthy hashable session key (e.g. the number 5).  A
truthy unhashable session key (a decoded list or dict) also passes
validation — it is not rejected with a 400 — but the handler then dies at
the store lookup with the uncaught TypeError: the generic 500, nothing
stored, no upstream call. -/
theorem falsy_validation_boundary :
    (∀ (store : Store) (upstream : UpstreamResponse) (other v : Json),
       (v = .num 0 ∨ v = .bool false ∨ v = .null ∨ v = .arr .nil) →
       ((chat_endpoint store
           (some (.obj (.cons "session_id" v (.cons "message" other .nil)))) upstream).response
           = .error { status := 400, detail := "Invalid request payload" } ∧
        (chat_endpoint store
           (some (.obj (.cons "session_id" v (.cons "message" other .nil)))) upstream).store
           = store) ∧
       ((chat_endpoint store
           (some (.obj (.cons "session_id" other (.cons "message" v .nil)))) upstream).response
           = .error { status := 400, detail := "Invalid request payload" } ∧
        (chat_endpoint store
           (some (.obj (.cons "session_id" other (.cons "message" v .nil)))) upstream).store
           = store)) ∧
    (∀ sidv v : Json, sidv.truthy = true → v.truthy = true →
       validateBody (some (.obj (.cons "session_id" sidv (.cons "message" v .nil))))
         = .ok (sidv, v)) ∧
    (∀ (store : Store) (upstream : UpstreamResponse) (sidv v : Json) (reply : String),
       sidv.truthy = true → sidv.hashable = true → v.truthy = true →
       (generate_llm_response
           ((Store.find store sidv).getD [] ++ [userTurn v]) upstream).2 = .ok reply →
       (chat_endpoint store
           (some (.obj (.cons "session_id" sidv (.cons "message" v .nil)))) upstream).store.find
           sidv
         = some ((Store.find store sidv).getD [] ++ [userTurn v, assistantTurn reply]) ∧
       (chat_endpoint store
           (some (.obj (.cons "session_id" sidv (.cons "message" v .nil)))) upstream).sentRequest
         = some (buildRequest ((Store.find store sidv).getD [] ++ [userTurn v]))) ∧
    (∀ (store : Store) (upstream : UpstreamResponse) (sidv v : Json),
       sidv.truthy = true → sidv.hashable = false → v.truthy = true →
       (chat_endpoint store
           (some (.obj (.cons "session_id" sidv (.cons "message" v .nil)))) upstream).response
         = .error { status := 500, detail := "Internal Server Error" } ∧
       (chat_endpoint store
           (some (.obj (.cons "session_id" sidv (.cons "message" v .nil)))) upstream).store
         = store ∧
       (chat_endpoint store
           (some (.obj (.cons "session_id" sidv (.cons "message" v .nil)))) upstream).sentRequest
         = none) := by
  have hval : ∀ sidv v : Json, sidv.truthy = true → v.truthy = true →
      parseRequest (some (.obj (.cons "session_id" sidv (.cons "message" v .nil))))
        = .ok (sidv, v) := by
    intro sidv v hs hv
    simp [parseRequest, validateBody, lookupField, hs, hv]
  refine ⟨?_, ?_, ?_, ?_⟩
  · intro store upstream other v hfalsy
    have hvt : v.truthy = false := by
      rcases hfalsy with rfl | rfl | rfl | rfl <;> rfl
    have hp1 : parseRequest (some (.obj (.cons "session_id" v (.cons "message" other .nil))))
        = .error { status := 400, detail := "Invalid request payload" } := by
      simp [parseRequest, validateBody, lookupField, hvt]
    have hp2 : parseRequest (some (.obj (.cons "session_id" other (.cons "message" v .nil))))
        = .error { status := 400, detail := "Invalid request payload" } := by
      simp [parseRequest, validateBody, lookupField, hvt]
    rw [chat_endpoint_parse_error store _ upstream _ hp1,
      chat_endpoint_parse_error store _ upstream _ hp2]
    exact ⟨⟨rfl, rfl⟩, rfl, rfl⟩
  · intro sidv v hs hv
    simp [validateBody, lookupField, hs, hv]
  · intro store upstream sidv v reply hs hsh hv hg
    constructor
    · rw [chat_endpoint_success_store store _ upstream sidv v reply (hval sidv v hs hv) hsh hg,
        Store.find_set_self]
    · rw [chat_endpoint_parse_ok store _ upstream sidv v (hval sidv v hs hv) hsh]
      cases hf : Store.find store sidv with
      | none =>
        rw [hf] at hg
        simp only [Option.getD_none, List.nil_append] at hg
        simp [hf, hg, generate_llm_response_fst]
      | some h =>
        rw [hf] at hg
        simp only [Option.getD_some] at hg
        simp [hf, hg, generate_llm_response_fst]
  · intro store upstream sidv v hs hsh hv
    rw [chat_endpoint_unhashable store _ upstream sidv v (hval sidv v hs hv) hsh]
    exact ⟨rfl, rfl, rfl⟩

/-- Witness for C9: session_id 0 is rejected; the dict session key together
with the message 5 passes validation; the truthy non-string message (a
non-empty object) is stored as turn content and forwarded under the truthy
non-string hashable session key 5; and the dict session key leads to the
generic 500 with nothing stored and no upstream call. -/
theorem falsy_validation_boundary_witness :
    ((chat_endpoint []
        (some (.obj (.cons "session_id" (.num 0) (.cons "message" (.str "hi") .nil))))
        (.netError "x")).response
      = .error { status := 400, detail := "Invalid request payload" } ∧
     (chat_endpoint []
        (some (.obj (.cons "session_id" (.num 0) (.cons "message" (.str "hi") .nil))))
        (.netError "x")).store = ([] : Store)) ∧
    validateBody (some (.obj (.cons "session_id" (.obj (.cons "a" .null .nil))
        (.cons "message" (.num 5) .nil))))
      = .ok (.obj (.cons "a" .null .nil), .num 5) ∧
    (chat_endpoint []
        (some (.obj (.cons "session_id" (.num 5)
          (.cons "message" (.obj (.cons "a" .null .nil)) .nil))))
        (.response 200 (some (.obj (.cons "choices"
          (.arr (.cons (.obj (.cons "text" (.str "ok") .nil)) .nil)) .nil))))).store.find
        (.num 5)
      = some ((Store.find ([] : Store) (.num 5)).getD []
          ++ [userTurn (.obj (.cons "a" .null .nil)), assistantTurn "ok"]) ∧
    ((chat_endpoint []
        (some (.obj (.cons "session_id" (.obj (.cons "a" .null .nil))
          (.cons "message" (.str "hi") .nil))))
        (.netError "x")).response
      = .error { status := 500, detail := "Internal Server Error" } ∧
     (chat_endpoint []
        (some (.obj (.cons "session_id" (.obj (.cons "a" .null .nil))
          (.cons "message" (.str "hi") .nil))))
        (.netError "x")).store = ([] : Store) ∧
     (chat_endpoint []
        (some (.obj (.cons "session_id" (.obj (.cons "a" .null .nil))
          (.cons "message" (.str "hi") .nil))))
        (.netError "x")).sentRequest = none) :=
  ⟨(falsy_validation_boundary.1 [] (.netError "x") (.str "hi") (.num 0)
      (Or.inl rfl)).1,
   falsy_validation_boundary.2.1 (.obj (.cons "a" .null .nil)) (.num 5) rfl rfl,
   (falsy_validation_boundary.2.2.1 []
      (.response 200 (some (.obj (.cons "choices"
        (.arr (.cons (.obj (.cons "text" (.str "ok") .nil)) .nil)) .nil))))
      (.num 5) (.obj (.cons "a" .null .nil)) "ok" rfl rfl rfl (by decide)).1,
   falsy_validation_boundary.2.2.2 [] (.netError "x")
     (.obj (.cons "a" .null .nil)) (.str "hi") rfl rfl rfl⟩

end ConverseCraft
